import Mathlib

/-!
Shallow embedding of the GraphAuth account security core
(`internal/auth`: `VerifyPattern`, `VerifyOTP`, `ForgotPassword`,
`ResetPassword`) over the `models.User` record.

Conventions of the embedding:
* Times are natural numbers (seconds).  Go's zero `time.Time` (the value
  bson decodes for an absent `lock_until` / `reset_token_expiry`) is
  modelled as `0`; a real "current time" is therefore positive.
  `time.Now().Before(x)` becomes `now < x`, `time.Now().After(x)` becomes
  `x < now`, `x.IsZero()` becomes `x = 0`.
* Go's zero string (absent `reset_token`) is modelled as `""`.
* The credential hash function (`hashPattern`) is an abstract parameter
  `hash : String → String`; the code compares `hashPattern(pattern)` with
  the stored `pattern_hash` by string equality.
* A fallible store update (`userCol.UpdateOne`) is modelled by a Boolean
  `updateOk`: when it is `false` the document is unchanged.  A MongoDB
  single-document update is atomic, so the update either applies all the
  fields of the `$set`/`$unset` document or none of them.
* Email sends are modelled by a Boolean `emailOk` where the code checks
  their error synchronously; the lockout-alert email runs in a goroutine
  whose error is only logged, so it does not appear in the state/result.
-/

namespace GraphAuth

/-- Embedding of `models.User` (internal/models/user.go), without the Mongo `_id`. -/
structure User where
  username : String
  email : String
  patternHash : String
  otpSecret : String
  resetToken : String
  resetTokenExpiry : Nat
  failedAttempts : Nat
  lockUntil : Nat
deriving DecidableEq

/-- The failed-attempt threshold (`newAttempts >= 5`). -/
def lockoutThreshold : Nat := 5

/-- The lock window: `time.Now().Add(1 * time.Minute)`, in seconds. -/
def lockoutSeconds : Nat := 60

/-- The reset-token lifetime: `time.Now().Add(1 * time.Hour)`, in seconds. -/
def resetTokenSeconds : Nat := 3600

/-- The lock check in `VerifyPattern`:
`!user.LockUntil.IsZero() && time.Now().Before(user.LockUntil)`. -/
def User.isLockedAt (u : User) (now : Nat) : Prop :=
  u.lockUntil ≠ 0 ∧ now < u.lockUntil

instance (u : User) (now : Nat) : Decidable (u.isLockedAt now) :=
  inferInstanceAs (Decidable (u.lockUntil ≠ 0 ∧ now < u.lockUntil))

/-- Outcome of `VerifyPattern`: success (`nil`), the "account is temporarily
locked until …" error carrying the lock expiry, or "incorrect pattern". -/
inductive VerifyResult where
  | ok
  | locked (lockUntil : Nat)
  | incorrectPattern
deriving DecidableEq

/-- Semantics of `VerifyPattern` with the store update applied (the update document is
written in one `UpdateOne` call): lock check, then hash comparison; on a
mismatch `failed_attempts := failedAttempts + 1` and, when the new count
reaches 5, `lock_until := now + 1min` in the same update; on a match
`failed_attempts := 0` and `lock_until` unset. -/
def verifyPatternStep (hash : String → String) (now : Nat) (u : User)
    (pattern : String) : VerifyResult × User :=
  if u.isLockedAt now then
    (VerifyResult.locked u.lockUntil, u)
  else if hash pattern ≠ u.patternHash then
    let newAttempts := u.failedAttempts + 1
    if lockoutThreshold ≤ newAttempts then
      (VerifyResult.incorrectPattern,
        { u with failedAttempts := newAttempts, lockUntil := now + lockoutSeconds })
    else
      (VerifyResult.incorrectPattern, { u with failedAttempts := newAttempts })
  else
    (VerifyResult.ok, { u with failedAttempts := 0, lockUntil := 0 })

/-- Semantics of `VerifyPattern` with a fallible store update: an `UpdateOne` error is
only logged (`log.Printf`), so the returned value is the same whether the
update succeeded or not; only the stored document differs. -/
def verifyPattern (hash : String → String) (now : Nat) (u : User)
    (pattern : String) (updateOk : Bool) : VerifyResult × User :=
  let r := verifyPatternStep hash now u pattern
  (r.1, if updateOk then r.2 else u)

/-- Outcome of `ResetPassword`. -/
inductive ResetResult where
  | ok
  | invalidOrExpiredToken
  | updateError
deriving DecidableEq

/-- Semantics of `ResetPassword` with the store update applied: reject when
`user.ResetToken != token || time.Now().After(user.ResetTokenExpiry)`,
otherwise set `pattern_hash` to the hash of the new pattern and unset
`reset_token` / `reset_token_expiry` in one update. -/
def resetPassword (hash : String → String) (now : Nat) (u : User)
    (token newPattern : String) : ResetResult × User :=
  if u.resetToken ≠ token ∨ u.resetTokenExpiry < now then
    (ResetResult.invalidOrExpiredToken, u)
  else
    (ResetResult.ok,
      { u with patternHash := hash newPattern, resetToken := "", resetTokenExpiry := 0 })

/-- Semantics of `ResetPassword` with a fallible store update: an `UpdateOne` error is
returned to the caller ("failed to update new pattern"). -/
def resetPasswordFallible (hash : String → String) (now : Nat) (u : User)
    (token newPattern : String) (updateOk : Bool) : ResetResult × User :=
  if u.resetToken ≠ token ∨ u.resetTokenExpiry < now then
    (ResetResult.invalidOrExpiredToken, u)
  else if updateOk then
    (ResetResult.ok,
      { u with patternHash := hash newPattern, resetToken := "", resetTokenExpiry := 0 })
  else
    (ResetResult.updateError, u)

/-- Outcome of `ForgotPassword`. -/
inductive ForgotResult where
  | ok
  | updateError
  | emailError
deriving DecidableEq

/-- Semantics of `ForgotPassword`: store the freshly generated `token` with
`reset_token_expiry := now + 1h` (an `UpdateOne` error is returned as
"failed to update reset token"), and only then send the reset email (a
send error is returned as "failed to send reset email", after the update
has already been committed). -/
def forgotPassword (now : Nat) (token : String) (u : User)
    (updateOk emailOk : Bool) : ForgotResult × User :=
  if updateOk then
    let u2 := { u with resetToken := token, resetTokenExpiry := now + resetTokenSeconds }
    if emailOk then (ForgotResult.ok, u2) else (ForgotResult.emailError, u2)
  else
    (ForgotResult.updateError, u)

/-- Outcome of an operation whose initial store read (`FindOne`) may
fail: either the surfaced "error retrieving user" infra error, or the
operation's own outcome.  Every core operation begins by decoding the
user record and returns that read error to its caller. -/
inductive ReadOutcome (R : Type) where
  | readError
  | res (r : R)
deriving DecidableEq

/-- Semantics of `VerifyPattern` with a fallible store read and a fallible
store update: a `FindOne` error is returned ("error retrieving user")
before anything else happens; an `UpdateOne` error is only logged. -/
def verifyPatternFull (hash : String → String) (now : Nat) (u : User)
    (pattern : String) (readOk updateOk : Bool) : ReadOutcome VerifyResult × User :=
  if readOk then
    let r := verifyPattern hash now u pattern updateOk
    (ReadOutcome.res r.1, r.2)
  else
    (ReadOutcome.readError, u)

/-- Semantics of `ForgotPassword` with a fallible store read: a `FindOne`
error is returned before the token is generated or stored. -/
def forgotPasswordFull (now : Nat) (token : String) (u : User)
    (readOk updateOk emailOk : Bool) : ReadOutcome ForgotResult × User :=
  if readOk then
    let r := forgotPassword now token u updateOk emailOk
    (ReadOutcome.res r.1, r.2)
  else
    (ReadOutcome.readError, u)

/-- Semantics of `ResetPassword` with a fallible store read and a fallible
store update: a `FindOne` error is returned before the token check; an
`UpdateOne` error is returned as "failed to update new pattern". -/
def resetPasswordFull (hash : String → String) (now : Nat) (u : User)
    (token newPattern : String) (readOk updateOk : Bool) :
    ReadOutcome ResetResult × User :=
  if readOk then
    let r := resetPasswordFallible hash now u token newPattern updateOk
    (ReadOutcome.res r.1, r.2)
  else
    (ReadOutcome.readError, u)

/-- Outcome of `RegisterUser`. -/
inductive RegisterResult where
  | ok
  | invalidEmail
  | userExists
  | readError
  | insertError
deriving DecidableEq

/-- Semantics of `RegisterUser`: validate the email, run the duplicate
check (a `FindOne` error other than no-documents is surfaced as "error
checking existing user"; a decoded record means "user already exists"),
then hash the pattern, generate the OTP secret and insert the record (an
`InsertOne` error is surfaced as "error inserting user").  The email
validation outcome (`util.ValidateEmail`) and the generated secret are
parameters, since neither touches the store; the stored record carries
counter 0 and zero-valued optional fields. -/
def registerUser (hash : String → String)
    (username email pattern otpSecret : String)
    (emailValid userExists readOk insertOk : Bool) :
    RegisterResult × Option User :=
  if !emailValid then (RegisterResult.invalidEmail, none)
  else if !readOk then (RegisterResult.readError, none)
  else if userExists then (RegisterResult.userExists, none)
  else if insertOk then
    (RegisterResult.ok,
      some { username := username, email := email, patternHash := hash pattern,
             otpSecret := otpSecret, resetToken := "", resetTokenExpiry := 0,
             failedAttempts := 0, lockUntil := 0 })
  else (RegisterResult.insertError, none)

/-- TOTP period used by `VerifyOTP`/`SendOTPEmail`: `Period: 300`. -/
def otpPeriod : Nat := 300

/-- The modulus `2^64` of Go's `uint64` counters in the otp library. -/
def uint64Mod : Nat := 2 ^ 64

/-- The TOTP counter: `floor(unixTime / period)` for `Period = 300`. -/
def totpCounter (t : Nat) : Nat := t / otpPeriod

/-- With `Skew: 1`, `totp.ValidateCustom` tries the counters
`[uint64(c), uint64(c+1), uint64(c-1)]` for `c = totpCounter now`
(the casts wrap modulo `2^64`). -/
def validateCounters (now : Nat) : List Nat :=
  [totpCounter now % uint64Mod, (totpCounter now + 1) % uint64Mod,
    (totpCounter now + uint64Mod - 1) % uint64Mod]

/-- Embedding of `totp.GenerateCodeCustom secret now`: the HOTP code of the current
counter.  The HMAC-SHA1 / 6-digit derivation lives in the external
`pquerna/otp` library, so it is an abstract parameter
`hotp : String → Nat → String` (secret and counter to code). -/
def generateCodeCustom (hotp : String → Nat → String) (secret : String)
    (t : Nat) : String :=
  hotp secret (totpCounter t % uint64Mod)

/-- Embedding of `totp.ValidateCustom code secret now`: accept iff the submitted code
equals the HOTP code of one of the tried counters. -/
def validateCustom (hotp : String → Nat → String) (code secret : String)
    (now : Nat) : Bool :=
  (validateCounters now).any fun c => hotp secret c == code

/-- Outcome of `VerifyOTP`. -/
inductive OTPResult where
  | ok
  | invalidOTP
deriving DecidableEq

/-- Semantics of `VerifyOTP`: validate the code against the stored `otp_secret`
(Period 300, Skew 1); no store write happens in either branch. -/
def verifyOTP (hotp : String → Nat → String) (now : Nat) (u : User)
    (code : String) : OTPResult × User :=
  if validateCustom hotp code u.otpSecret now then (OTPResult.ok, u)
  else (OTPResult.invalidOTP, u)

/-- Semantics of `VerifyOTP` with a fallible store read: a `FindOne` error
is returned ("error retrieving user") before the code is checked. -/
def verifyOTPFull (hotp : String → Nat → String) (now : Nat) (u : User)
    (code : String) (readOk : Bool) : ReadOutcome OTPResult × User :=
  if readOk then
    let r := verifyOTP hotp now u code
    (ReadOutcome.res r.1, r.2)
  else
    (ReadOutcome.readError, u)

/-- The account states reachable through the core operations: a freshly
registered user (`RegisterUser` stores `FailedAttempts: 0` and leaves
`lock_until`, `reset_token`, `reset_token_expiry` at their zero values),
followed by any sequence of `VerifyPattern`, `ForgotPassword` and
`ResetPassword` calls at arbitrary times, with each store update either
applying or failing. -/
inductive Reachable (hash : String → String) : User → Prop where
  | registered (username email otpSecret pattern : String) :
      Reachable hash
        { username := username, email := email, patternHash := hash pattern,
          otpSecret := otpSecret, resetToken := "", resetTokenExpiry := 0,
          failedAttempts := 0, lockUntil := 0 }
  | verified (u : User) (now : Nat) (pattern : String) (updateOk : Bool) :
      Reachable hash u → Reachable hash (verifyPattern hash now u pattern updateOk).2
  | forgot (u : User) (now : Nat) (token : String) (updateOk emailOk : Bool) :
      Reachable hash u → Reachable hash (forgotPassword now token u updateOk emailOk).2
  | reset (u : User) (now : Nat) (token newPattern : String) (updateOk : Bool) :
      Reachable hash u → Reachable hash (resetPasswordFallible hash now u token newPattern updateOk).2

/-- A concrete hash function used to instantiate the abstract one on
concrete traces. -/
def cHash : String → String := fun s => s

/-- A freshly registered concrete account. -/
def cu0 : User :=
  { username := "alice", email := "a@x.com", patternHash := "3-1-4",
    otpSecret := "sec", resetToken := "", resetTokenExpiry := 0,
    failedAttempts := 0, lockUntil := 0 }

/-- One mismatched verification attempt at time 100 ("9-9-9" against the
stored hash of "3-1-4"), with the store update applied. -/
def cstep (u : User) : User := (verifyPattern cHash 100 u "9-9-9" true).2

/-- The account after four mismatched attempts. -/
def cu4 : User := cstep (cstep (cstep (cstep cu0)))

/-- The account after five mismatched attempts (locked until 160). -/
def cu5 : User := cstep cu4

theorem cu4_reachable : Reachable cHash cu4 :=
  Reachable.verified _ 100 "9-9-9" true
    (Reachable.verified _ 100 "9-9-9" true
      (Reachable.verified _ 100 "9-9-9" true
        (Reachable.verified _ 100 "9-9-9" true
          (Reachable.registered "alice" "a@x.com" "sec" "3-1-4"))))

theorem cu5_reachable : Reachable cHash cu5 :=
  Reachable.verified _ 100 "9-9-9" true cu4_reachable

/-- On a mismatch while unlocked, `VerifyPattern` builds a single update
document: the incremented counter, plus the lock timestamp when the new
count reaches the threshold. -/
theorem verifyPatternStep_mismatch (hash : String → String) (now : Nat) (u : User)
    (pattern : String) (hU : ¬ u.isLockedAt now) (hM : hash pattern ≠ u.patternHash) :
    verifyPatternStep hash now u pattern =
      (VerifyResult.incorrectPattern,
        if lockoutThreshold ≤ u.failedAttempts + 1 then
          { u with failedAttempts := u.failedAttempts + 1,
                   lockUntil := now + lockoutSeconds }
        else
          { u with failedAttempts := u.failedAttempts + 1 }) := by
  rw [verifyPatternStep, if_neg hU, if_pos hM]
  by_cases h5 : lockoutThreshold ≤ u.failedAttempts + 1 <;> simp [h5]

/-- C1: while Unlocked, a mismatched attempt reports "incorrect pattern"
and commits `failedAttempts + 1`; when the new count reaches the
threshold of 5, the same single update also sets
`lockUntil = now + 1 minute` (so the account is Locked); below 5 the lock
field is untouched and the account stays Unlocked.  The fallible update
applies the whole document or nothing. -/
theorem verifyPattern_mismatch_increment_lock_atomic
    (hash : String → String) (now : Nat) (u : User) (pattern : String) (updateOk : Bool)
    (hUnlocked : ¬ u.isLockedAt now) (hMismatch : hash pattern ≠ u.patternHash) :
    (verifyPattern hash now u pattern updateOk).1 = VerifyResult.incorrectPattern ∧
    (verifyPatternStep hash now u pattern).2.failedAttempts = u.failedAttempts + 1 ∧
    (lockoutThreshold ≤ u.failedAttempts + 1 →
      (verifyPatternStep hash now u pattern).2.lockUntil = now + lockoutSeconds ∧
      (verifyPatternStep hash now u pattern).2.isLockedAt now) ∧
    (u.failedAttempts + 1 < lockoutThreshold →
      (verifyPatternStep hash now u pattern).2.lockUntil = u.lockUntil ∧
      ¬ (verifyPatternStep hash now u pattern).2.isLockedAt now) ∧
    ((verifyPattern hash now u pattern updateOk).2 = (verifyPatternStep hash now u pattern).2 ∨
      (verifyPattern hash now u pattern updateOk).2 = u) := by
  rw [verifyPattern, verifyPatternStep_mismatch hash now u pattern hUnlocked hMismatch]
  by_cases h5 : lockoutThreshold ≤ u.failedAttempts + 1
  · refine ⟨rfl, by simp [h5], fun _ => ⟨by simp [h5], ?_⟩,
      fun h => absurd h5 (by omega), ?_⟩
    · simp only [if_pos h5]
      exact ⟨by simp [lockoutSeconds], by simp [lockoutSeconds]⟩
    · cases updateOk <;> simp
  · refine ⟨rfl, by simp [h5], fun h => absurd h (by omega),
      fun _ => ⟨by simp [h5], ?_⟩, ?_⟩
    · simp only [if_neg h5]
      simpa [User.isLockedAt] using hUnlocked
    · cases updateOk <;> simp

/-- Concrete account with 3 failed attempts, unlocked. -/
def wUser1 : User := ⟨"u", "e", "h", "s", "", 0, 3, 0⟩

theorem verifyPattern_mismatch_increment_lock_atomic_witness :
    (verifyPattern cHash 10 wUser1 "x" true).1 = VerifyResult.incorrectPattern ∧
    (verifyPatternStep cHash 10 wUser1 "x").2.failedAttempts = wUser1.failedAttempts + 1 ∧
    (lockoutThreshold ≤ wUser1.failedAttempts + 1 →
      (verifyPatternStep cHash 10 wUser1 "x").2.lockUntil = 10 + lockoutSeconds ∧
      (verifyPatternStep cHash 10 wUser1 "x").2.isLockedAt 10) ∧
    (wUser1.failedAttempts + 1 < lockoutThreshold →
      (verifyPatternStep cHash 10 wUser1 "x").2.lockUntil = wUser1.lockUntil ∧
      ¬ (verifyPatternStep cHash 10 wUser1 "x").2.isLockedAt 10) ∧
    ((verifyPattern cHash 10 wUser1 "x" true).2 = (verifyPatternStep cHash 10 wUser1 "x").2 ∨
      (verifyPattern cHash 10 wUser1 "x" true).2 = wUser1) :=
  verifyPattern_mismatch_increment_lock_atomic cHash 10 wUser1 "x" true
    (by decide) (by decide)

/-- C3: while Locked, every verification attempt (any pattern, whether the
store update would succeed or not) is rejected with the lock expiry and
leaves the account record entirely unchanged. -/
theorem verifyPattern_locked_rejects_unchanged
    (hash : String → String) (now : Nat) (u : User) (pattern : String) (updateOk : Bool)
    (hLocked : u.isLockedAt now) :
    verifyPattern hash now u pattern updateOk = (VerifyResult.locked u.lockUntil, u) := by
  rw [verifyPattern, verifyPatternStep, if_pos hLocked]
  cases updateOk <;> rfl

/-- Concrete locked account (locked until 160, observed at 120). -/
def wUser3 : User := ⟨"u", "e", "h", "s", "", 0, 5, 160⟩

theorem verifyPattern_locked_rejects_unchanged_witness :
    verifyPattern cHash 120 wUser3 "h" true = (VerifyResult.locked wUser3.lockUntil, wUser3) :=
  verifyPattern_locked_rejects_unchanged cHash 120 wUser3 "h" true (by decide)

/-- C4: while Unlocked, a matching pattern resets `failedAttempts` to 0,
clears `lockUntil`, and reports success, whatever the prior counter. -/
theorem verifyPattern_match_resets
    (hash : String → String) (now : Nat) (u : User) (pattern : String)
    (hUnlocked : ¬ u.isLockedAt now) (hMatch : hash pattern = u.patternHash) :
    verifyPatternStep hash now u pattern =
      (VerifyResult.ok, { u with failedAttempts := 0, lockUntil := 0 }) := by
  rw [verifyPatternStep, if_neg hUnlocked, if_neg (by simp [hMatch])]

/-- Concrete unlocked account with an expired lock and counter 7. -/
def wUser4 : User := ⟨"u", "e", "h", "s", "", 0, 7, 160⟩

theorem verifyPattern_match_resets_witness :
    verifyPatternStep cHash 200 wUser4 "h" =
      (VerifyResult.ok, { wUser4 with failedAttempts := 0, lockUntil := 0 }) :=
  verifyPattern_match_resets cHash 200 wUser4 "h" (by decide) (by decide)

/-- C9: once the lock window has elapsed, the account counts as Unlocked
but the counter is kept, so a single further mismatch (new count ≥ 5,
not = 5) immediately re-locks with `lockUntil = now + 1 minute`; and the
counter only ever decreases on a successful match. -/
theorem verifyPattern_relock_after_expiry
    (hash : String → String) (now : Nat) (u : User) (pattern : String)
    (hCount : lockoutThreshold ≤ u.failedAttempts)
    (hElapsed : u.lockUntil ≤ now)
    (hMismatch : hash pattern ≠ u.patternHash) :
    (verifyPatternStep hash now u pattern).1 = VerifyResult.incorrectPattern ∧
    (verifyPatternStep hash now u pattern).2.failedAttempts = u.failedAttempts + 1 ∧
    (verifyPatternStep hash now u pattern).2.lockUntil = now + lockoutSeconds ∧
    (verifyPatternStep hash now u pattern).2.isLockedAt now ∧
    (∀ now2 pattern2,
      (verifyPatternStep hash now2 u pattern2).2.failedAttempts < u.failedAttempts →
      (verifyPatternStep hash now2 u pattern2).1 = VerifyResult.ok) := by
  have hU : ¬ u.isLockedAt now := by
    rw [User.isLockedAt]; omega
  rw [verifyPatternStep_mismatch hash now u pattern hU hMismatch]
  have h5 : lockoutThreshold ≤ u.failedAttempts + 1 := by omega
  refine ⟨rfl, by simp [h5], by simp [h5], ?_, ?_⟩
  · simp only [if_pos h5]
    exact ⟨by simp [lockoutSeconds], by simp [lockoutSeconds]⟩
  · intro now2 pattern2 hlt
    rw [verifyPatternStep] at hlt ⊢
    by_cases hL2 : u.isLockedAt now2
    · rw [if_pos hL2] at hlt
      simp only [] at hlt
      omega
    · rw [if_neg hL2] at hlt ⊢
      by_cases hM2 : hash pattern2 ≠ u.patternHash
      · rw [if_pos hM2] at hlt
        by_cases h52 : lockoutThreshold ≤ u.failedAttempts + 1 <;>
          simp [h52] at hlt
      · rw [if_neg hM2]

/-- Concrete account: counter 5, lock expired at 160, observed at 200. -/
def wUser9 : User := ⟨"u", "e", "h", "s", "", 0, 5, 160⟩

theorem verifyPattern_relock_after_expiry_witness :
    (verifyPatternStep cHash 200 wUser9 "x").1 = VerifyResult.incorrectPattern ∧
    (verifyPatternStep cHash 200 wUser9 "x").2.failedAttempts = wUser9.failedAttempts + 1 ∧
    (verifyPatternStep cHash 200 wUser9 "x").2.lockUntil = 200 + lockoutSeconds ∧
    (verifyPatternStep cHash 200 wUser9 "x").2.isLockedAt 200 ∧
    (∀ now2 pattern2,
      (verifyPatternStep cHash now2 wUser9 pattern2).2.failedAttempts < wUser9.failedAttempts →
      (verifyPatternStep cHash now2 wUser9 pattern2).1 = VerifyResult.ok) :=
  verifyPattern_relock_after_expiry cHash 200 wUser9 "x"
    (by decide) (by decide) (by decide)

/-- One verification step preserves the lock/counter invariant: the lock
field is absent exactly while the counter is below the threshold. -/
theorem lockCounterInv_step (hash : String → String) (now : Nat) (u : User)
    (pattern : String)
    (h0 : u.lockUntil = 0 → u.failedAttempts < lockoutThreshold)
    (h1 : u.lockUntil ≠ 0 → lockoutThreshold ≤ u.failedAttempts) :
    ((verifyPatternStep hash now u pattern).2.lockUntil = 0 →
      (verifyPatternStep hash now u pattern).2.failedAttempts < lockoutThreshold) ∧
    ((verifyPatternStep hash now u pattern).2.lockUntil ≠ 0 →
      lockoutThreshold ≤ (verifyPatternStep hash now u pattern).2.failedAttempts) := by
  rw [verifyPatternStep]
  by_cases hL : u.isLockedAt now
  · rw [if_pos hL]
    exact ⟨h0, h1⟩
  · rw [if_neg hL]
    by_cases hM : hash pattern ≠ u.patternHash
    · rw [if_pos hM]
      by_cases h5 : lockoutThreshold ≤ u.failedAttempts + 1
      · simp only [if_pos h5]
        refine ⟨fun h => absurd h (by simp [lockoutSeconds]), fun _ => by simpa using h5⟩
      · simp only [if_neg h5]
        exact ⟨fun _ => by simpa using (by omega : u.failedAttempts + 1 < lockoutThreshold),
          fun hne => by simpa using Nat.le_succ_of_le (h1 (by simpa using hne))⟩
    · rw [if_neg hM]
      exact ⟨fun _ => by simp [lockoutThreshold], fun h => absurd (by simp) h⟩

/-- Every reachable account satisfies the lock/counter invariant. -/
theorem lockCounterInv_reachable (hash : String → String) (u : User)
    (h : Reachable hash u) :
    (u.lockUntil = 0 → u.failedAttempts < lockoutThreshold) ∧
    (u.lockUntil ≠ 0 → lockoutThreshold ≤ u.failedAttempts) := by
  induction h with
  | registered username email otpSecret pattern => simp [lockoutThreshold]
  | verified u now pattern updateOk _ ih =>
    cases updateOk with
    | false => simpa [verifyPattern] using ih
    | true =>
      have := lockCounterInv_step hash now u pattern ih.1 ih.2
      simpa [verifyPattern] using this
  | forgot u now token updateOk emailOk _ ih =>
    cases updateOk <;> cases emailOk <;> simpa [forgotPassword] using ih
  | reset u now token newPattern updateOk _ ih =>
    rw [resetPasswordFallible]
    by_cases hc : u.resetToken ≠ token ∨ u.resetTokenExpiry < now
    · simpa [hc] using ih
    · cases updateOk <;> simpa [hc] using ih

/-- C2 amended: for every reachable account, `failedAttempts < 5` exactly
while `lockUntil` is absent; whenever `lockUntil` is set — even after the
window elapsed, when the account already counts as Unlocked again — the
counter is ≥ 5; and a mismatch that brings the counter to the threshold
yields `lockUntil = now + 1 minute > now`, i.e. a Locked account. -/
theorem reachable_lockout_invariant (hash : String → String) (u : User)
    (h : Reachable hash u) :
    (u.lockUntil = 0 → u.failedAttempts < lockoutThreshold) ∧
    (u.lockUntil ≠ 0 → lockoutThreshold ≤ u.failedAttempts) ∧
    (∀ now pattern, ¬ u.isLockedAt now → hash pattern ≠ u.patternHash →
      lockoutThreshold ≤ u.failedAttempts + 1 →
      (verifyPatternStep hash now u pattern).2.lockUntil = now + lockoutSeconds ∧
      now < (verifyPatternStep hash now u pattern).2.lockUntil ∧
      (verifyPatternStep hash now u pattern).2.isLockedAt now) := by
  obtain ⟨h0, h1⟩ := lockCounterInv_reachable hash u h
  refine ⟨h0, h1, fun now pattern hU hM h5 => ?_⟩
  rw [verifyPatternStep_mismatch hash now u pattern hU hM]
  simp only [if_pos h5]
  refine ⟨by simp, by simp [lockoutSeconds], ?_⟩
  exact ⟨by simp [lockoutSeconds], by simp [lockoutSeconds]⟩

theorem reachable_lockout_invariant_witness :
    (cu4.lockUntil = 0 → cu4.failedAttempts < lockoutThreshold) ∧
    (cu4.lockUntil ≠ 0 → lockoutThreshold ≤ cu4.failedAttempts) ∧
    (∀ now pattern, ¬ cu4.isLockedAt now → cHash pattern ≠ cu4.patternHash →
      lockoutThreshold ≤ cu4.failedAttempts + 1 →
      (verifyPatternStep cHash now cu4 pattern).2.lockUntil = now + lockoutSeconds ∧
      now < (verifyPatternStep cHash now cu4 pattern).2.lockUntil ∧
      (verifyPatternStep cHash now cu4 pattern).2.isLockedAt now) :=
  reachable_lockout_invariant cHash cu4 cu4_reachable

/-- C2 as stated: for every reachable account, the counter is below 5
whenever the account is Unlocked (`lockUntil` absent or not in the
future), and a mismatch bringing the counter to 5 yields a Locked account
with `lockUntil` strictly in the future. -/
def lockoutInvariantAsStated : Prop :=
  ∀ (hash : String → String) (u : User), Reachable hash u →
    (∀ now : Nat, ¬ u.isLockedAt now → u.failedAttempts < lockoutThreshold) ∧
    (∀ now pattern, ¬ u.isLockedAt now → hash pattern ≠ u.patternHash →
      lockoutThreshold ≤ (verifyPatternStep hash now u pattern).2.failedAttempts →
      (verifyPatternStep hash now u pattern).2.isLockedAt now ∧
      now < (verifyPatternStep hash now u pattern).2.lockUntil)

/-- C2 as stated is false: after five mismatches at time 100 the account
is locked until 160; at time 200 it counts as Unlocked again, yet
`failedAttempts` still reads 5. -/
theorem lockoutInvariantAsStated_false : ¬ lockoutInvariantAsStated := by
  intro h
  have h5 : cu5.failedAttempts < lockoutThreshold :=
    (h cHash cu5 cu5_reachable).1 200 (by decide)
  exact absurd h5 (by decide)

/-- C5: `ResetPassword` accepts exactly when the submitted token equals
the stored `reset_token` and the current time is not after
`reset_token_expiry`; the accepting update clears the token, so a second
consumption with the same token is rejected (at any positive later
time). -/
theorem resetPassword_consume_iff_single_use
    (hash : String → String) (now now2 : Nat) (u : User)
    (token newPattern pattern2 : String) (hnow2 : 0 < now2) :
    ((resetPassword hash now u token newPattern).1 = ResetResult.ok ↔
      (u.resetToken = token ∧ now ≤ u.resetTokenExpiry)) ∧
    ((resetPassword hash now u token newPattern).1 = ResetResult.ok →
      (resetPassword hash now2 (resetPassword hash now u token newPattern).2
        token pattern2).1 = ResetResult.invalidOrExpiredToken) := by
  constructor
  · rw [resetPassword]
    by_cases hc : u.resetToken ≠ token ∨ u.resetTokenExpiry < now
    · rw [if_pos hc]
      simp only [reduceCtorEq, false_iff]
      rintro ⟨he, hle⟩
      rcases hc with h | h
      · exact h he
      · omega
    · rw [if_neg hc]
      push_neg at hc
      simp only [true_iff]
      exact hc
  · intro hok
    have hacc : ¬ (u.resetToken ≠ token ∨ u.resetTokenExpiry < now) := by
      intro hc
      rw [resetPassword, if_pos hc] at hok
      exact absurd hok (by simp)
    have hstate : (resetPassword hash now u token newPattern).2 =
        { u with
          patternHash := hash newPattern,
          resetToken := "",
          resetTokenExpiry := 0 } := by
      rw [resetPassword, if_neg hacc]
    have hc2 : ({ u with
        patternHash := hash newPattern,
        resetToken := "",
        resetTokenExpiry := 0 } : User).resetToken ≠ token ∨
        ({ u with
          patternHash := hash newPattern,
          resetToken := "",
          resetTokenExpiry := 0 } : User).resetTokenExpiry < now2 := by
      by_cases ht : token = ""
      · exact Or.inr (by simpa using hnow2)
      · exact Or.inl (by simpa using fun h => ht h.symm)
    rw [hstate, resetPassword, if_pos hc2]

/-- Concrete account holding reset token "T1" valid until 1000. -/
def wUser5 : User := ⟨"u", "e", "h", "s", "T1", 1000, 2, 0⟩

theorem resetPassword_consume_iff_single_use_witness :
    ((resetPassword cHash 500 wUser5 "T1" "5-5-5").1 = ResetResult.ok ↔
      (wUser5.resetToken = "T1" ∧ 500 ≤ wUser5.resetTokenExpiry)) ∧
    ((resetPassword cHash 500 wUser5 "T1" "5-5-5").1 = ResetResult.ok →
      (resetPassword cHash 600 (resetPassword cHash 500 wUser5 "T1" "5-5-5").2
        "T1" "6-6-6").1 = ResetResult.invalidOrExpiredToken) :=
  resetPassword_consume_iff_single_use cHash 500 600 wUser5 "T1" "5-5-5" "6-6-6"
    (by decide)

/-- C6: `ResetPassword` never touches `failed_attempts`, `lock_until`,
`username`, `email`, `otp_secret`; on acceptance it stores the hash of
the new pattern and clears the token fields; every rejection — token
mismatch or expiry alike — returns the one uniform
"invalid or expired reset token" outcome with the record unchanged. -/
theorem resetPassword_effect_and_frame
    (hash : String → String) (now : Nat) (u : User) (token newPattern : String) :
    (resetPassword hash now u token newPattern).2.failedAttempts = u.failedAttempts ∧
    (resetPassword hash now u token newPattern).2.lockUntil = u.lockUntil ∧
    (resetPassword hash now u token newPattern).2.username = u.username ∧
    (resetPassword hash now u token newPattern).2.email = u.email ∧
    (resetPassword hash now u token newPattern).2.otpSecret = u.otpSecret ∧
    resetPassword hash now u token newPattern =
      (if u.resetToken = token ∧ now ≤ u.resetTokenExpiry then
        (ResetResult.ok,
          { u with patternHash := hash newPattern, resetToken := "",
                   resetTokenExpiry := 0 })
      else (ResetResult.invalidOrExpiredToken, u)) := by
  by_cases hc : u.resetToken = token ∧ now ≤ u.resetTokenExpiry
  · have hneg : ¬ (u.resetToken ≠ token ∨ u.resetTokenExpiry < now) := by
      push_neg
      exact hc
    simp [resetPassword, if_neg hneg, if_pos hc]
  · have hpos : u.resetToken ≠ token ∨ u.resetTokenExpiry < now := by
      by_contra hn
      push_neg at hn
      exact hc hn
    simp [resetPassword, if_pos hpos, if_neg hc]

/-- C8 as stated (for the verification attempt, whose store update the
claim's sources point at): a failed store update changes the outcome
reported to the caller, i.e. the failure is surfaced. -/
def updateFailureSurfacedAsStated : Prop :=
  ∀ (hash : String → String) (now : Nat) (u : User) (pattern : String),
    ¬ u.isLockedAt now →
    (verifyPattern hash now u pattern false).1 ≠ (verifyPattern hash now u pattern true).1

/-- C8 as stated is false: in `VerifyPattern` an `UpdateOne` error is only
logged — here a correct pattern whose counter-reset update fails is still
reported as a success. -/
theorem updateFailureSurfacedAsStated_false : ¬ updateFailureSurfacedAsStated :=
  fun h => h cHash 1 cu0 "3-1-4" (by decide) rfl

/-- C8 amended: every core operation (register, verification attempt, OTP
confirm, reset issuance/consumption) surfaces a store-read failure to its
caller; register surfaces its insert failure, reset issuance surfaces its
update failure and its reset-email failure, and reset consumption
surfaces its update failure.  The only swallowed failures are the
lockout-alert email (a goroutine that logs the error) and the
verification attempt's own store update (counter increment/lock write and
counter reset), whose failure is logged and leaves the returned outcome
identical to the success path. -/
theorem infraFailure_surfacing_amended :
    (∀ (hash : String → String) (now : Nat) (u : User) (pattern : String)
      (updateOk : Bool),
      verifyPatternFull hash now u pattern false updateOk = (ReadOutcome.readError, u)) ∧
    (∀ (hotp : String → Nat → String) (now : Nat) (u : User) (code : String),
      verifyOTPFull hotp now u code false = (ReadOutcome.readError, u)) ∧
    (∀ (now : Nat) (token : String) (u : User) (updateOk emailOk : Bool),
      forgotPasswordFull now token u false updateOk emailOk = (ReadOutcome.readError, u)) ∧
    (∀ (hash : String → String) (now : Nat) (u : User) (token newPattern : String)
      (updateOk : Bool),
      resetPasswordFull hash now u token newPattern false updateOk =
        (ReadOutcome.readError, u)) ∧
    (∀ (hash : String → String) (username email pattern otpSecret : String)
      (userExists insertOk : Bool),
      (registerUser hash username email pattern otpSecret true userExists false insertOk).1 =
        RegisterResult.readError) ∧
    (∀ (hash : String → String) (username email pattern otpSecret : String),
      (registerUser hash username email pattern otpSecret true false true false).1 =
        RegisterResult.insertError) ∧
    (∀ (hash : String → String) (now : Nat) (u : User) (token newPattern : String),
      resetPasswordFallible hash now u token newPattern false =
        if u.resetToken ≠ token ∨ u.resetTokenExpiry < now then
          (ResetResult.invalidOrExpiredToken, u)
        else (ResetResult.updateError, u)) ∧
    (∀ (now : Nat) (token : String) (u : User) (emailOk : Bool),
      forgotPassword now token u false emailOk = (ForgotResult.updateError, u)) ∧
    (∀ (now : Nat) (token : String) (u : User),
      (forgotPassword now token u true false).1 = ForgotResult.emailError) ∧
    (∀ (hash : String → String) (now : Nat) (u : User) (pattern : String),
      verifyPattern hash now u pattern false =
        ((verifyPatternStep hash now u pattern).1, u)) := by
  refine ⟨fun hash now u pattern updateOk => rfl,
    fun hotp now u code => rfl,
    fun now token u updateOk emailOk => rfl,
    fun hash now u token newPattern updateOk => rfl,
    fun hash username email pattern otpSecret userExists insertOk => rfl,
    fun hash username email pattern otpSecret => rfl,
    fun hash now u token newPattern => ?_,
    fun now token u emailOk => rfl,
    fun now token u => rfl,
    fun hash now u pattern => rfl⟩
  rw [resetPasswordFallible]
  by_cases hc : u.resetToken ≠ token ∨ u.resetTokenExpiry < now
  · rw [if_pos hc, if_pos hc]
  · rw [if_neg hc, if_neg hc]
    rfl

/-- C10: `ForgotPassword` commits the new token and its 1-hour expiry to
the store before attempting email delivery: when the send fails the
caller gets an error, yet the stored record already carries the new
token — identical to the record after a successful send — and the prior
token no longer consumes. -/
theorem forgotPassword_state_committed_before_email
    (hash : String → String) (now now2 : Nat) (token oldToken newPattern : String)
    (u : User) (hne : oldToken ≠ token) :
    (forgotPassword now token u true false).1 = ForgotResult.emailError ∧
    (forgotPassword now token u true false).2 =
      { u with resetToken := token, resetTokenExpiry := now + resetTokenSeconds } ∧
    (forgotPassword now token u true false).2 = (forgotPassword now token u true true).2 ∧
    (resetPassword hash now2 (forgotPassword now token u true false).2
      oldToken newPattern).1 = ResetResult.invalidOrExpiredToken := by
  refine ⟨rfl, rfl, rfl, ?_⟩
  have hc : (forgotPassword now token u true false).2.resetToken ≠ oldToken ∨
      (forgotPassword now token u true false).2.resetTokenExpiry < now2 :=
    Or.inl (Ne.symm hne)
  rw [resetPassword, if_pos hc]

/-- Concrete account holding the prior reset token "T1". -/
def wUser10 : User := ⟨"u", "e", "h", "s", "T1", 1000, 0, 0⟩

theorem forgotPassword_state_committed_before_email_witness :
    (forgotPassword 10 "T2" wUser10 true false).1 = ForgotResult.emailError ∧
    (forgotPassword 10 "T2" wUser10 true false).2 =
      { wUser10 with resetToken := "T2", resetTokenExpiry := 10 + resetTokenSeconds } ∧
    (forgotPassword 10 "T2" wUser10 true false).2 =
      (forgotPassword 10 "T2" wUser10 true true).2 ∧
    (resetPassword cHash 20 (forgotPassword 10 "T2" wUser10 true false).2
      "T1" "6-6-6").1 = ResetResult.invalidOrExpiredToken :=
  forgotPassword_state_committed_before_email cHash 10 20 "T2" "T1" "6-6-6" wUser10
    (by decide)

/-- C7: a code issued from the stored secret at time `t` validates at time
`now` exactly when the two 300-second windows are at most one window (the
skew) apart, and validation leaves the account unchanged.  `hotp` is the
external library's HMAC-based code derivation; the collision-freedom
hypothesis `hnc` says no tried counter other than the issuing one happens
to produce the same 6-digit code.  The side conditions keep the `uint64`
counter casts away from the wrap-around at counter 0. -/
theorem verifyOTP_window (hotp : String → Nat → String) (now t : Nat) (u : User)
    (h1 : 1 ≤ totpCounter now) (h2 : totpCounter now + 1 < uint64Mod)
    (h3 : totpCounter t < uint64Mod)
    (hnc : ∀ c ∈ validateCounters now,
      hotp u.otpSecret c = hotp u.otpSecret (totpCounter t) → c = totpCounter t) :
    ((verifyOTP hotp now u (generateCodeCustom hotp u.otpSecret t)).1 = OTPResult.ok ↔
      (totpCounter now - 1 ≤ totpCounter t ∧ totpCounter t ≤ totpCounter now + 1)) ∧
    (verifyOTP hotp now u (generateCodeCustom hotp u.otpSecret t)).2 = u := by
  have e1 : totpCounter now % uint64Mod = totpCounter now := Nat.mod_eq_of_lt (by omega)
  have e2 : (totpCounter now + 1) % uint64Mod = totpCounter now + 1 :=
    Nat.mod_eq_of_lt h2
  have e3 : (totpCounter now + uint64Mod - 1) % uint64Mod = totpCounter now - 1 := by
    have hsplit : totpCounter now + uint64Mod - 1 = (totpCounter now - 1) + 1 * uint64Mod := by
      have : 0 < uint64Mod := Nat.pos_pow_of_pos 64 (by omega)
      omega
    rw [hsplit, Nat.add_mul_mod_self_right]
    exact Nat.mod_eq_of_lt (by omega)
  have hcounters : validateCounters now =
      [totpCounter now, totpCounter now + 1, totpCounter now - 1] := by
    rw [validateCounters, e1, e2, e3]
  have hcode : generateCodeCustom hotp u.otpSecret t = hotp u.otpSecret (totpCounter t) := by
    rw [generateCodeCustom, Nat.mod_eq_of_lt h3]
  have hval : validateCustom hotp (hotp u.otpSecret (totpCounter t)) u.otpSecret now = true ↔
      (totpCounter now - 1 ≤ totpCounter t ∧ totpCounter t ≤ totpCounter now + 1) := by
    rw [validateCustom, hcounters]
    simp only [List.any_eq_true, beq_iff_eq]
    constructor
    · rintro ⟨c, hc, he⟩
      have hceq : c = totpCounter t := by
        refine hnc c ?_ he
        rw [hcounters]
        exact hc
      subst hceq
      simp only [List.mem_cons, List.not_mem_nil, or_false] at hc
      omega
    · rintro ⟨hlo, hhi⟩
      have hcases : totpCounter t = totpCounter now ∨
          totpCounter t = totpCounter now + 1 ∨
          totpCounter t = totpCounter now - 1 := by omega
      refine ⟨totpCounter t, ?_, rfl⟩
      rcases hcases with h | h | h <;> simp [h]
  refine ⟨?_, ?_⟩
  · rw [hcode]
    rw [verifyOTP]
    by_cases hb : validateCustom hotp (hotp u.otpSecret (totpCounter t)) u.otpSecret now = true
    · rw [if_pos hb]
      simpa using hval.mp hb
    · rw [if_neg hb]
      simp only [reduceCtorEq, false_iff]
      intro hr
      exact hb (hval.mpr hr)
  · rw [verifyOTP]
    by_cases hb : validateCustom hotp (generateCodeCustom hotp u.otpSecret t) u.otpSecret now = true
    · rw [if_pos hb]
    · rw [if_neg hb]

/-- A concrete injective code derivation for the witness. -/
def wHotp : String → Nat → String := fun _ c => toString c

/-- Concrete account for the OTP witness. -/
def wUser7 : User := ⟨"u", "e", "h", "sec", "", 0, 0, 0⟩

theorem verifyOTP_window_witness :
    ((verifyOTP wHotp 600 wUser7 (generateCodeCustom wHotp wUser7.otpSecret 700)).1 =
        OTPResult.ok ↔
      (totpCounter 600 - 1 ≤ totpCounter 700 ∧ totpCounter 700 ≤ totpCounter 600 + 1)) ∧
    (verifyOTP wHotp 600 wUser7 (generateCodeCustom wHotp wUser7.otpSecret 700)).2 = wUser7 :=
  verifyOTP_window wHotp 600 700 wUser7 (by decide) (by decide) (by decide) (by decide)

end GraphAuth
